import Mathlib

/-! Shallow embedding of the resilience primitives of the fastertools/actions
repository:

* `downloadWithRetry`  (src/setup-ftl-js/src/platform.ts) — bounded-retry
  fetcher with exponential backoff;
* `waitForHealthCheck` (src/ftl-server-up/src/shared/process.ts) — fixed
  interval readiness poller;
* `killProcessGracefully` (same file) — graceful-then-forceful process
  termination;
* `obtainOAuthToken` / `cacheOAuthToken` / `getCachedOAuthToken`
  (packages/setup-ftl/src/shared/oauth.ts) — OAuth2 client-credentials
  token exchange and process-wide cache;
* `waitForDeploymentCompletion` (packages/ftl-eng-deploy/src/main.ts) —
  deployment-status poller with a terminal "failed" state.

Network and process behaviour is supplied by oracles (one result per
attempt index); observable side effects (fetches, sleeps, filesystem
writes, secret maskings, signals) are recorded as event traces.
-/

set_option maxRecDepth 10000

namespace FtlActions

/-- JavaScript truthiness of an optional string: `undefined` and `""` are
falsy, every other string is truthy. -/
def jsTruthyStr (v : Option String) : Bool :=
  match v with
  | none => false
  | some s => s ≠ ""

/-- JavaScript `v || d` for an optional string value `v` (absent and empty
strings fall back to the default). -/
def jsOrString (v : Option String) (d : String) : String :=
  match v with
  | none => d
  | some s => if s = "" then d else s

/-- JavaScript `v || d` for an optional numeric value `v` (absent and `0`
fall back to the default). -/
def jsOrNat (v : Option Nat) (d : Nat) : Nat :=
  match v with
  | none => d
  | some n => if n = 0 then d else n

/-- Proposition that `pat` occurs as a contiguous substring of `s`. -/
def strContains (s pat : String) : Prop :=
  pat.toList <:+: s.toList

instance (s pat : String) : Decidable (strContains s pat) := by
  unfold strContains
  infer_instance

/-- Prefix test: `needle` is a prefix of `haystack` (char lists). -/
def charsIsPre : List Char → List Char → Bool
  | [], _ => true
  | _ :: _, [] => false
  | a :: as, b :: bs => a == b && charsIsPre as bs

/-- Containment test: `haystack` contains `needle` as a contiguous run (char lists). -/
def charsContains : List Char → List Char → Bool
  | [], needle => needle.isEmpty
  | b :: bs, needle => charsIsPre needle (b :: bs) || charsContains bs needle

/-- Boolean substring test, used where the source calls
`String.prototype.includes`. -/
def strContainsB (s pat : String) : Bool :=
  charsContains s.toList pat.toList

/-! Embedding of downloadWithRetry (src/setup-ftl-js/src/platform.ts)

```
for (let attempt = 0; attempt < maxRetries; attempt++) {
  try { fetch url; on ok: mkdir(dirname(outputPath)); writeFile(outputPath); return }
  catch (error) {
    lastError = error
    if (attempt === maxRetries - 1) break
    const delay = backoffMs * Math.pow(2, attempt)
    await sleep(delay)
  }
}
throw new Error(`Download failed after N attempts: lastError`)
```

The network is an oracle `attempts : Nat → Option String`: `none` means
attempt `k` succeeds, `some msg` means it fails with error message `msg`
(covering HTTP error statuses, aborts and network failures alike). -/

/-- Observable side effects of one `downloadWithRetry` run, in order. -/
inductive DlEvent where
  | fetch (attempt : Nat)
  | sleep (ms : Nat)
  | mkdirParentOf (path : String)
  | writeFile (path : String)
  deriving DecidableEq, Repr

/-- Final outcome of a `downloadWithRetry` run. -/
inductive DlOutcome where
  | success
  | failure (msg : String)
  deriving DecidableEq, Repr

/-- The aggregate error thrown after the loop:
`Download failed after ${maxRetries} attempts: ${lastError?.message || 'Unknown error'}`. -/
def dwrFailMsg (maxRetries : Nat) (lastError : Option String) : String :=
  "Download failed after " ++ toString maxRetries ++ " attempts: " ++
    lastError.getD "Unknown error"

/-- Body of the retry loop of `downloadWithRetry`.  `fuel` is initialised
to `maxRetries` and kept equal to `maxRetries - attempt`, so `fuel = 0` is
exactly the loop exit `attempt = maxRetries`; `lastError` carries the last
attempt's error across iterations as in the source. -/
def dwrGo (attempts : Nat → Option String) (outputPath : String)
    (maxRetries backoffMs : Nat) :
    Nat → Nat → Option String → List DlEvent × DlOutcome
  | 0, _, lastError => ([], .failure (dwrFailMsg maxRetries lastError))
  | fuel + 1, attempt, _ =>
    match attempts attempt with
    | none =>
      ([.fetch attempt, .mkdirParentOf outputPath, .writeFile outputPath],
       .success)
    | some msg =>
      if attempt = maxRetries - 1 then
        ([.fetch attempt], .failure (dwrFailMsg maxRetries (some msg)))
      else
        let rest := dwrGo attempts outputPath maxRetries backoffMs fuel
          (attempt + 1) (some msg)
        (.fetch attempt :: .sleep (backoffMs * 2 ^ attempt) :: rest.1, rest.2)

/-- Model of `downloadWithRetry(url, outputPath, {maxRetries, backoffMs})` with its
network behaviour given by the `attempts` oracle.  Returns the ordered
trace of side effects together with the outcome. -/
def downloadWithRetry (attempts : Nat → Option String) (outputPath : String)
    (maxRetries backoffMs : Nat) : List DlEvent × DlOutcome :=
  dwrGo attempts outputPath maxRetries backoffMs maxRetries 0 none

/-- The trace the spec predicts when every attempt fails: fetches at
`start, start+1, …, start+n-1`, separated by sleeps of
`backoffMs * 2 ^ k`, with no sleep after the final fetch. -/
def expectedFailTraceFrom (backoffMs : Nat) : Nat → Nat → List DlEvent
  | _, 0 => []
  | start, 1 => [.fetch start]
  | start, n + 2 =>
    .fetch start :: .sleep (backoffMs * 2 ^ start) ::
      expectedFailTraceFrom backoffMs (start + 1) (n + 1)

/-- Recogniser for fetch events. -/
def isFetchDl : DlEvent → Bool
  | .fetch _ => true
  | _ => false

/-- Recogniser for filesystem events (directory creation or file write). -/
def isFsDl : DlEvent → Bool
  | .mkdirParentOf _ => true
  | .writeFile _ => true
  | _ => false

theorem dwrGo_allFail (attempts : Nat → Option String) (errs : Nat → String)
    (outputPath : String) (maxRetries backoffMs : Nat) :
    ∀ fuel attempt prev, fuel = maxRetries - attempt → attempt < maxRetries →
    (∀ k, attempt ≤ k → k < maxRetries → attempts k = some (errs k)) →
    dwrGo attempts outputPath maxRetries backoffMs fuel attempt prev =
      (expectedFailTraceFrom backoffMs attempt (maxRetries - attempt),
       .failure (dwrFailMsg maxRetries (some (errs (maxRetries - 1))))) := by
  intro fuel
  induction fuel with
  | zero =>
    intro attempt prev hfuel hlt _
    omega
  | succ f ih =>
    intro attempt prev hfuel hlt hk
    have hatt : attempts attempt = some (errs attempt) :=
      hk attempt (Nat.le_refl attempt) hlt
    by_cases hlast : attempt = maxRetries - 1
    · subst hlast
      have h1 : maxRetries - (maxRetries - 1) = 1 := by omega
      simp [dwrGo, hatt, h1, expectedFailTraceFrom]
    · obtain ⟨m, hm⟩ : ∃ m, maxRetries - attempt = m + 2 := ⟨maxRetries - attempt - 2, by omega⟩
      have hrest := ih (attempt + 1) (some (errs attempt)) (by omega) (by omega)
        (fun k hk1 hk2 => hk k (by omega) hk2)
      have hm1 : maxRetries - (attempt + 1) = m + 1 := by omega
      rw [hm1] at hrest
      simp [dwrGo, hatt, hlast, hm, expectedFailTraceFrom, hrest]

theorem expectedFailTraceFrom_fetch_count (backoffMs : Nat) :
    ∀ n start,
      ((expectedFailTraceFrom backoffMs start n).filter isFetchDl).length = n := by
  intro n
  induction n using Nat.strong_induction_on with
  | _ n ih =>
    match n with
    | 0 => intro start; simp [expectedFailTraceFrom]
    | 1 => intro start; simp [expectedFailTraceFrom, isFetchDl]
    | m + 2 =>
      intro start
      have h := ih (m + 1) (by omega) (start + 1)
      simp [expectedFailTraceFrom, isFetchDl, h]

theorem expectedFailTraceFrom_no_fs (backoffMs : Nat) :
    ∀ n start e, e ∈ expectedFailTraceFrom backoffMs start n → isFsDl e = false := by
  intro n
  induction n using Nat.strong_induction_on with
  | _ n ih =>
    match n with
    | 0 => intro start e he; simp [expectedFailTraceFrom] at he
    | 1 =>
      intro start e he
      simp [expectedFailTraceFrom] at he
      simp [he, isFsDl]
    | m + 2 =>
      intro start e he
      simp [expectedFailTraceFrom] at he
      rcases he with he | he | he
      · simp [he, isFsDl]
      · simp [he, isFsDl]
      · exact ih (m + 1) (by omega) (start + 1) e he

theorem dwrGo_fs_confined (attempts : Nat → Option String) (outputPath : String)
    (maxRetries backoffMs : Nat) :
    ∀ fuel attempt prev e,
      e ∈ (dwrGo attempts outputPath maxRetries backoffMs fuel attempt prev).1 →
      isFsDl e = true →
      (e = .mkdirParentOf outputPath ∨ e = .writeFile outputPath) ∧
        (dwrGo attempts outputPath maxRetries backoffMs fuel attempt prev).2 =
          DlOutcome.success := by
  intro fuel
  induction fuel with
  | zero =>
    intro attempt prev e he _
    simp [dwrGo] at he
  | succ f ih =>
    intro attempt prev e he hfs
    rcases hatt : attempts attempt with _ | msg
    · simp [dwrGo, hatt] at he ⊢
      rcases he with he | he | he
      · rw [he] at hfs; simp [isFsDl] at hfs
      · simp [he]
      · simp [he]
    · by_cases hlast : attempt = maxRetries - 1
      · subst hlast
        simp [dwrGo, hatt] at he
        rw [he] at hfs
        simp [isFsDl] at hfs
      · simp [dwrGo, hatt, hlast] at he ⊢
        rcases he with he | he | he
        · rw [he] at hfs; simp [isFsDl] at hfs
        · rw [he] at hfs; simp [isFsDl] at hfs
        · exact ih (attempt + 1) (some msg) e he hfs

/-- C1. When every attempt of `downloadWithRetry` fails and
`maxRetries = N ≥ 1`, the observable trace is exactly
`fetch 0, sleep (backoffMs * 2^0), fetch 1, sleep (backoffMs * 2^1), …,
fetch (N-1)`: exactly `N` fetch attempts are issued, strictly sequentially
(the trace is a single ordered list), the sleep between attempt `k` and
attempt `k+1` is `backoffMs * 2^k` for `k = 0 … N-2`, and no sleep follows
the final attempt. -/
theorem downloadWithRetry_allFail_trace (attempts : Nat → Option String)
    (errs : Nat → String) (outputPath : String) (maxRetries backoffMs : Nat)
    (hN : 1 ≤ maxRetries)
    (hfail : ∀ k, k < maxRetries → attempts k = some (errs k)) :
    (downloadWithRetry attempts outputPath maxRetries backoffMs).1 =
      expectedFailTraceFrom backoffMs 0 maxRetries ∧
    ((downloadWithRetry attempts outputPath maxRetries backoffMs).1.filter
        isFetchDl).length = maxRetries := by
  have h := dwrGo_allFail attempts errs outputPath maxRetries backoffMs
    maxRetries 0 none (by omega) (by omega) (fun k _ hk2 => hfail k hk2)
  unfold downloadWithRetry
  rw [h]
  exact ⟨by simp, by simpa using expectedFailTraceFrom_fetch_count backoffMs maxRetries 0⟩

/-- C1 witness: with 3 attempts that all fail and `backoffMs = 5000`,
the trace is `fetch 0, sleep 5000, fetch 1, sleep 10000, fetch 2`. -/
theorem downloadWithRetry_allFail_trace_witness :
    (downloadWithRetry (fun _ => some "boom") "/tmp/out" 3 5000).1 =
      expectedFailTraceFrom 5000 0 3 ∧
    ((downloadWithRetry (fun _ => some "boom") "/tmp/out" 3 5000).1.filter
        isFetchDl).length = 3 :=
  downloadWithRetry_allFail_trace (fun _ => some "boom") (fun _ => "boom")
    "/tmp/out" 3 5000 (by omega) (fun k _ => rfl)

theorem strContains_append (a pat b : String) : strContains (a ++ pat ++ b) pat := by
  unfold strContains
  have h : (a ++ pat ++ b).toList = a.toList ++ pat.toList ++ b.toList := rfl
  rw [h]
  exact List.infix_append a.toList pat.toList b.toList

/-- C8. When all `downloadWithRetry` attempts fail, the run rejects with
the single aggregate error
`Download failed after ${maxRetries} attempts: ${lastError.message}`
(naming the attempt count and the last underlying error), and the trace
contains no filesystem event, so nothing is written to the destination.
Moreover, over every oracle, filesystem events target only the destination
path (its write and its parent-directory creation) and occur only in runs
that end in success. -/
theorem downloadWithRetry_failure_effects (attempts : Nat → Option String)
    (errs : Nat → String) (outputPath : String) (maxRetries backoffMs : Nat)
    (hN : 1 ≤ maxRetries)
    (hfail : ∀ k, k < maxRetries → attempts k = some (errs k)) :
    (downloadWithRetry attempts outputPath maxRetries backoffMs).2 =
      .failure ("Download failed after " ++ toString maxRetries ++
        " attempts: " ++ errs (maxRetries - 1)) ∧
    strContains ("Download failed after " ++ toString maxRetries ++
        " attempts: " ++ errs (maxRetries - 1)) (toString maxRetries) ∧
    (∀ e ∈ (downloadWithRetry attempts outputPath maxRetries backoffMs).1,
      isFsDl e = false) ∧
    (∀ (atts : Nat → Option String) e,
      e ∈ (downloadWithRetry atts outputPath maxRetries backoffMs).1 →
      isFsDl e = true →
      (e = .mkdirParentOf outputPath ∨ e = .writeFile outputPath) ∧
        (downloadWithRetry atts outputPath maxRetries backoffMs).2 =
          DlOutcome.success) := by
  have h := dwrGo_allFail attempts errs outputPath maxRetries backoffMs
    maxRetries 0 none (by omega) (by omega) (fun k _ hk2 => hfail k hk2)
  refine ⟨?_, ?_, ?_, ?_⟩
  · unfold downloadWithRetry
    rw [h]
    simp [dwrFailMsg, Option.getD]
  · have hc : "Download failed after " ++ toString maxRetries ++
        " attempts: " ++ errs (maxRetries - 1) =
        "Download failed after " ++ toString maxRetries ++
        (" attempts: " ++ errs (maxRetries - 1)) := by
      rw [String.append_assoc]
    rw [hc]
    exact strContains_append "Download failed after " (toString maxRetries)
      (" attempts: " ++ errs (maxRetries - 1))
  · intro e he
    unfold downloadWithRetry at he
    rw [h] at he
    exact expectedFailTraceFrom_no_fs backoffMs maxRetries 0 e he
  · intro atts e he hfs
    exact dwrGo_fs_confined atts outputPath maxRetries backoffMs maxRetries 0
      none e he hfs

/-- C8 witness: concrete all-fail run with 2 attempts. -/
theorem downloadWithRetry_failure_effects_witness :
    (downloadWithRetry (fun _ => some "HTTP 500: oops") "/tmp/out" 2 100).2 =
      .failure ("Download failed after " ++ toString 2 ++
        " attempts: " ++ "HTTP 500: oops") ∧
    strContains ("Download failed after " ++ toString 2 ++
        " attempts: " ++ "HTTP 500: oops") (toString 2) ∧
    (∀ e ∈ (downloadWithRetry (fun _ => some "HTTP 500: oops") "/tmp/out" 2 100).1,
      isFsDl e = false) ∧
    (∀ (atts : Nat → Option String) e,
      e ∈ (downloadWithRetry atts "/tmp/out" 2 100).1 →
      isFsDl e = true →
      (e = .mkdirParentOf "/tmp/out" ∨ e = .writeFile "/tmp/out") ∧
        (downloadWithRetry atts "/tmp/out" 2 100).2 = DlOutcome.success) :=
  downloadWithRetry_failure_effects (fun _ => some "HTTP 500: oops")
    (fun _ => "HTTP 500: oops") "/tmp/out" 2 100 (by omega) (fun k _ => rfl)

/-! Embedding of waitForHealthCheck (src/ftl-server-up/src/shared/process.ts)

```
const timeoutMs = timeoutSeconds * 1000
const maxAttempts = Math.ceil(timeoutMs / intervalMs) + 1
for (let attempt = 0; attempt < maxAttempts; attempt++) {
  try {
    const response = await fetch(url, …)
    if (response.ok) {
      if (expectedStatus && response.status !== expectedStatus) { /* keep waiting */ }
      else return
    }
  } catch { /* keep waiting */ }
  if (attempt < maxAttempts - 1) await delay(intervalMs)
}
throw new Error(`Server health check failed after ${timeoutSeconds}s timeout`)
```

The probe oracle maps an attempt index to `none` (the fetch threw) or
`some (ok, status)` (a response with its `ok` flag and status code). -/

/-- JavaScript truthiness of an optional numeric value: `undefined` and
`0` are falsy. -/
def jsTruthyNat (v : Option Nat) : Bool :=
  match v with
  | none => false
  | some n => n ≠ 0

/-- Ceiling division `Math.ceil(a / b)` on naturals (exact for `b > 0`). -/
def natCeilDiv (a b : Nat) : Nat := (a + b - 1) / b

/-- One loop iteration of `waitForHealthCheck` reaches `return` exactly
when the probe produced a response with `response.ok` and — when an
`expectedStatus` is supplied (and truthy) — with the expected status
code. -/
def healthAttemptSucceeds (expectedStatus : Option Nat) :
    Option (Bool × Nat) → Bool
  | none => false
  | some (ok, status) =>
    ok && !(jsTruthyNat expectedStatus && status != expectedStatus.getD 0)

/-- The attempt loop of `waitForHealthCheck`: `fuel` is initialised to
`maxAttempts` and counts the remaining iterations.  Returns the number of
probe attempts issued and whether the loop returned with success. -/
def whcGo (probe : Nat → Option (Bool × Nat)) (expectedStatus : Option Nat) :
    Nat → Nat → Nat × Bool
  | 0, _ => (0, false)
  | fuel + 1, attempt =>
    if healthAttemptSucceeds expectedStatus (probe attempt) then (1, true)
    else
      let rest := whcGo probe expectedStatus fuel (attempt + 1)
      (rest.1 + 1, rest.2)

/-- Model of `waitForHealthCheck(url, {timeoutSeconds, intervalMs, expectedStatus})`
with the network given by the `probe` oracle.  Returns the number of probe
attempts and the outcome (`Except.error` models the thrown timeout
error). -/
def waitForHealthCheck (probe : Nat → Option (Bool × Nat))
    (expectedStatus : Option Nat) (timeoutSeconds intervalMs : Nat) :
    Nat × Except String Unit :=
  let timeoutMs := timeoutSeconds * 1000
  let maxAttempts := natCeilDiv timeoutMs intervalMs + 1
  let r := whcGo probe expectedStatus maxAttempts 0
  (r.1,
   if r.2 then Except.ok ()
   else Except.error ("Server health check failed after " ++
     toString timeoutSeconds ++ "s timeout"))

theorem whcGo_allFail (probe : Nat → Option (Bool × Nat))
    (expectedStatus : Option Nat)
    (hfail : ∀ k, healthAttemptSucceeds expectedStatus (probe k) = false) :
    ∀ fuel attempt, whcGo probe expectedStatus fuel attempt = (fuel, false) := by
  intro fuel
  induction fuel with
  | zero => intro attempt; rfl
  | succ f ih =>
    intro attempt
    simp [whcGo, hfail attempt, ih (attempt + 1)]

/-- C2. When `intervalMs > 0` and the probe never succeeds,
`waitForHealthCheck` issues exactly
`⌈timeoutSeconds * 1000 / intervalMs⌉ + 1` probe attempts and then
terminates exactly once, by returning the thrown timeout error (the model
is a total function, so it cannot hang), whose message contains the
configured `timeoutSeconds`. -/
theorem waitForHealthCheck_timeout (probe : Nat → Option (Bool × Nat))
    (expectedStatus : Option Nat) (timeoutSeconds intervalMs : Nat)
    (hi : 0 < intervalMs)
    (hfail : ∀ k, healthAttemptSucceeds expectedStatus (probe k) = false) :
    waitForHealthCheck probe expectedStatus timeoutSeconds intervalMs =
      (timeoutSeconds * 1000 ⌈/⌉ intervalMs + 1,
       Except.error ("Server health check failed after " ++
         toString timeoutSeconds ++ "s timeout")) ∧
    strContains ("Server health check failed after " ++
        toString timeoutSeconds ++ "s timeout") (toString timeoutSeconds) := by
  constructor
  · simp only [waitForHealthCheck]
    rw [whcGo_allFail probe expectedStatus hfail]
    have hceil : natCeilDiv (timeoutSeconds * 1000) intervalMs =
        timeoutSeconds * 1000 ⌈/⌉ intervalMs := by
      rw [Nat.ceilDiv_eq_add_pred_div]
      rfl
    simp [hceil]
  · exact strContains_append "Server health check failed after "
      (toString timeoutSeconds) "s timeout"

/-- C2 witness: defaults `timeoutSeconds = 30`, `intervalMs = 2000`
with a probe that always throws make `⌈30000/2000⌉ + 1 = 16` attempts and
end in the timeout error. -/
theorem waitForHealthCheck_timeout_witness :
    waitForHealthCheck (fun _ => none) none 30 2000 =
      (30 * 1000 ⌈/⌉ 2000 + 1,
       Except.error ("Server health check failed after " ++
         toString 30 ++ "s timeout")) ∧
    strContains ("Server health check failed after " ++
        toString 30 ++ "s timeout") (toString 30) :=
  waitForHealthCheck_timeout (fun _ => none) none 30 2000 (by omega)
    (fun _ => rfl)

/-! Embedding of killProcessGracefully (src/ftl-server-up/src/shared/process.ts)

```
if (process.killed) return            // already terminated: no-op
if (!process.pid) throw 'Cannot kill process: PID is undefined'
const ok = process.kill('SIGTERM')
if (!ok) reject(`Failed to send SIGTERM to process ${pid}`)
timer(timeoutMs):
  fired first → forceful ? (warn; kill('SIGKILL'); resolve)
                         : (warn; resolve)
exit observed first → clearTimeout; resolve
```

The timing race is abstracted by `exitsWithinTimeout`: whether the process
reports exit within `timeoutMs` of the SIGTERM; `termDeliverOk` is the
return value of `process.kill('SIGTERM')`.  Node sets `ChildProcess.killed`
once `kill()` has been invoked successfully, which is the flag the function
reads on entry. -/

/-- Signals a supervisor can deliver. -/
inductive Signal where
  | sigterm
  | sigkill
  deriving DecidableEq, Repr

/-- Outcome of the returned promise. -/
inductive KillOutcome where
  | resolved
  | rejected (msg : String)
  deriving DecidableEq, Repr

/-- The child-process state `killProcessGracefully` observes. -/
structure ProcState where
  killed : Bool
  pid : Option Nat
  deriving DecidableEq, Repr

/-- Result of one `killProcessGracefully` invocation: signals successfully
sent (in order), promise outcome, warnings logged, and the process state
after the call. -/
structure KillResult where
  signals : List Signal
  outcome : KillOutcome
  warnings : List String
  post : ProcState
  deriving DecidableEq, Repr

/-- Model of `killProcessGracefully(process, {timeoutMs, forceful})` under the
scenario (`termDeliverOk`, `exitsWithinTimeout`).  `timeoutMs` only arms
the timer whose race is summarised by `exitsWithinTimeout`, so it does not
otherwise influence the result. -/
def killProcessGracefully (proc : ProcState)
    (termDeliverOk exitsWithinTimeout forceful : Bool) (timeoutMs : Nat) :
    KillResult :=
  if proc.killed then
    { signals := [], outcome := .resolved, warnings := [], post := proc }
  else
    match proc.pid with
    | none =>
      { signals := []
        outcome := .rejected "Cannot kill process: PID is undefined"
        warnings := [], post := proc }
    | some pid =>
      if !termDeliverOk then
        { signals := []
          outcome := .rejected ("Failed to send SIGTERM to process " ++
            toString pid)
          warnings := [], post := proc }
      else if exitsWithinTimeout then
        { signals := [.sigterm], outcome := .resolved, warnings := []
          post := { proc with killed := true } }
      else if forceful then
        { signals := [.sigterm, .sigkill], outcome := .resolved
          warnings :=
            ["Process did not exit gracefully, forcing termination (SIGKILL)..."]
          post := { proc with killed := true } }
      else
        { signals := [.sigterm], outcome := .resolved
          warnings :=
            ["Process did not exit within timeout, but forceful termination is disabled"]
          post := { proc with killed := true } }

/-- C3. For `killProcessGracefully` on a live process (not yet killed,
pid known, SIGTERM delivered): if the process exits within `timeoutMs`,
SIGKILL is never sent and the call resolves; if it does not exit in time
and `forceful = true`, SIGKILL is sent exactly once; if it does not exit in
time and `forceful = false`, the call still resolves (with a warning)
rather than rejecting, and SIGKILL is not sent. -/
theorem killProcessGracefully_live (proc : ProcState) (pid : Nat)
    (exitsWithinTimeout forceful : Bool) (timeoutMs : Nat)
    (hlive : proc.killed = false) (hpid : proc.pid = some pid) :
    (exitsWithinTimeout = true →
      (killProcessGracefully proc true exitsWithinTimeout forceful
        timeoutMs).signals = [.sigterm] ∧
      (killProcessGracefully proc true exitsWithinTimeout forceful
        timeoutMs).outcome = .resolved) ∧
    (exitsWithinTimeout = false → forceful = true →
      (killProcessGracefully proc true exitsWithinTimeout forceful
        timeoutMs).signals = [.sigterm, .sigkill] ∧
      ((killProcessGracefully proc true exitsWithinTimeout forceful
        timeoutMs).signals.count .sigkill = 1) ∧
      (killProcessGracefully proc true exitsWithinTimeout forceful
        timeoutMs).outcome = .resolved) ∧
    (exitsWithinTimeout = false → forceful = false →
      (killProcessGracefully proc true exitsWithinTimeout forceful
        timeoutMs).outcome = .resolved ∧
      Signal.sigkill ∉ (killProcessGracefully proc true exitsWithinTimeout
        forceful timeoutMs).signals ∧
      (killProcessGracefully proc true exitsWithinTimeout forceful
        timeoutMs).warnings ≠ []) := by
  cases exitsWithinTimeout <;> cases forceful <;>
    simp [killProcessGracefully, hlive, hpid]

/-- C3 witness: the three scenarios at a concrete live process. -/
theorem killProcessGracefully_live_witness :
    ((true : Bool) = true →
      (killProcessGracefully ⟨false, some 42⟩ true true true 10000).signals =
        [.sigterm] ∧
      (killProcessGracefully ⟨false, some 42⟩ true true true
        10000).outcome = .resolved) ∧
    ((true : Bool) = false → (true : Bool) = true →
      (killProcessGracefully ⟨false, some 42⟩ true true true
        10000).signals = [.sigterm, .sigkill] ∧
      ((killProcessGracefully ⟨false, some 42⟩ true true true
        10000).signals.count .sigkill = 1) ∧
      (killProcessGracefully ⟨false, some 42⟩ true true true
        10000).outcome = .resolved) ∧
    ((true : Bool) = false → (true : Bool) = false →
      (killProcessGracefully ⟨false, some 42⟩ true true true
        10000).outcome = .resolved ∧
      Signal.sigkill ∉ (killProcessGracefully ⟨false, some 42⟩ true true true
        10000).signals ∧
      (killProcessGracefully ⟨false, some 42⟩ true true true
        10000).warnings ≠ []) :=
  killProcessGracefully_live ⟨false, some 42⟩ 42 true true 10000 rfl rfl

/-- C7. A second `killProcessGracefully` on an already-terminated
process is a no-op: once `killed` is set no invocation sends any signal
(and the call resolves), and across a first invocation on a live process
plus a second invocation on the resulting state, at most two signals are
sent in total. -/
theorem killProcessGracefully_idempotent (proc : ProcState) (pid : Nat)
    (exitsWithinTimeout forceful exits2 forceful2 : Bool) (t1 t2 : Nat)
    (hlive : proc.killed = false) (hpid : proc.pid = some pid) :
    (∀ (q : ProcState), q.killed = true → ∀ (d e f : Bool) (t : Nat),
      (killProcessGracefully q d e f t).signals = [] ∧
      (killProcessGracefully q d e f t).outcome = .resolved) ∧
    ((killProcessGracefully
        (killProcessGracefully proc true exitsWithinTimeout forceful t1).post
        true exits2 forceful2 t2).signals = [] ∧
     (killProcessGracefully
        (killProcessGracefully proc true exitsWithinTimeout forceful t1).post
        true exits2 forceful2 t2).outcome = .resolved ∧
     (killProcessGracefully proc true exitsWithinTimeout forceful
        t1).signals.length +
       (killProcessGracefully
         (killProcessGracefully proc true exitsWithinTimeout forceful t1).post
         true exits2 forceful2 t2).signals.length ≤ 2) := by
  constructor
  · intro q hq d e f t
    simp [killProcessGracefully, hq]
  · cases exitsWithinTimeout <;> cases forceful <;>
      simp [killProcessGracefully, hlive, hpid]

/-- C7 witness: concrete double invocation (first forceful, process
does not exit in time). -/
theorem killProcessGracefully_idempotent_witness :
    (∀ (q : ProcState), q.killed = true → ∀ (d e f : Bool) (t : Nat),
      (killProcessGracefully q d e f t).signals = [] ∧
      (killProcessGracefully q d e f t).outcome = .resolved) ∧
    ((killProcessGracefully
        (killProcessGracefully ⟨false, some 7⟩ true false true 10000).post
        true false true 10000).signals = [] ∧
     (killProcessGracefully
        (killProcessGracefully ⟨false, some 7⟩ true false true 10000).post
        true false true 10000).outcome = .resolved ∧
     (killProcessGracefully ⟨false, some 7⟩ true false true
        10000).signals.length +
       (killProcessGracefully
         (killProcessGracefully ⟨false, some 7⟩ true false true 10000).post
         true false true 10000).signals.length ≤ 2) :=
  killProcessGracefully_idempotent ⟨false, some 7⟩ 7 false true false true
    10000 10000 rfl rfl

/-! Embedding of the OAuth client-credentials exchange and token cache
(packages/setup-ftl/src/shared/oauth.ts)

`obtainOAuthToken` masks both credentials with `core.setSecret` first,
then POSTs the form-encoded grant; a non-2xx response throws
`OAuth authentication failed: ${status} ${statusText}`, and every error is
re-wrapped by the surrounding catch as
`OAuth token acquisition failed: ${message}`.  On success the token is
built with JS `||` defaults.  `cacheOAuthToken` writes the token and an
absolute expiry epoch into process-wide variables; `getCachedOAuthToken`
reads them back, treating falsy fields, unparsable expiry and
already-reached expiry as cache misses. -/

/-- Inputs of `obtainOAuthToken`. -/
structure OAuthConfig where
  url : String
  clientId : String
  clientSecret : String
  scope : String := "deploy"
  deriving DecidableEq, Repr

/-- The token object `obtainOAuthToken` returns. -/
structure OAuthToken where
  accessToken : String
  tokenType : String
  expiresIn : Nat
  deriving DecidableEq, Repr

/-- Fields of the JSON body of a token-endpoint response (each possibly
absent). -/
structure TokenResponseBody where
  access_token : Option String := none
  token_type : Option String := none
  expires_in : Option Nat := none
  deriving DecidableEq, Repr

/-- Behaviour of the single `fetch` of `obtainOAuthToken`: the fetch
itself may throw, or return a response with a status, a status text and a
JSON body (whose parse may in turn throw). -/
inductive FetchOutcome where
  | networkError (msg : String)
  | response (status : Nat) (statusText : String)
      (body : Except String TokenResponseBody)
  deriving Repr

/-- Observable actions of `obtainOAuthToken`, in program order. -/
inductive OAuthEvent where
  | setSecret (v : String)
  | fetchTo (url : String)
  deriving DecidableEq, Repr

/-- Recogniser for network-request events. -/
def isFetchOAuth : OAuthEvent → Bool
  | .fetchTo _ => true
  | _ => false

/-- Response success flag `Response.ok`: the status lies in the 200–299 range. -/
def respOk (status : Nat) : Bool := 200 ≤ status && status ≤ 299

/-- Token built in the success branch:
`{accessToken: access_token || '', tokenType: token_type || 'Bearer',
expiresIn: expires_in || 3600}`. -/
def tokenFromBody (b : TokenResponseBody) : OAuthToken :=
  { accessToken := jsOrString b.access_token ""
    tokenType := jsOrString b.token_type "Bearer"
    expiresIn := jsOrNat b.expires_in 3600 }

/-- Model of `obtainOAuthToken(config)` with the network call given by `net`.
Returns the ordered event trace and the settled promise. -/
def obtainOAuthToken (cfg : OAuthConfig) (net : FetchOutcome) :
    List OAuthEvent × Except String OAuthToken :=
  let masked : List OAuthEvent :=
    [.setSecret cfg.clientId, .setSecret cfg.clientSecret]
  match net with
  | .networkError msg =>
    (masked ++ [.fetchTo cfg.url],
     .error ("OAuth token acquisition failed: " ++ msg))
  | .response status statusText body =>
    if !respOk status then
      (masked ++ [.fetchTo cfg.url],
       .error ("OAuth token acquisition failed: OAuth authentication failed: "
         ++ toString status ++ " " ++ statusText))
    else
      match body with
      | .error jsonErr =>
        (masked ++ [.fetchTo cfg.url],
         .error ("OAuth token acquisition failed: " ++ jsonErr))
      | .ok b =>
        (masked ++ [.fetchTo cfg.url] ++
          (if jsTruthyStr b.access_token then
            [.setSecret (b.access_token.getD "")]
          else []),
         .ok (tokenFromBody b))

/-- The process-wide store (`FTL_AUTH_TOKEN`, `FTL_TOKEN_TYPE`,
`FTL_TOKEN_EXPIRES` environment variables). -/
structure EnvStore where
  ftlAuthToken : Option String := none
  ftlTokenType : Option String := none
  ftlTokenExpires : Option String := none
  deriving DecidableEq, Repr

/-- Model of `cacheOAuthToken(token)` at current time `now` (epoch ms): stores the
token fields and the absolute expiry `now + expiresIn * 1000` rendered as a
decimal string. -/
def cacheOAuthToken (token : OAuthToken) (now : Int) : EnvStore :=
  { ftlAuthToken := some token.accessToken
    ftlTokenType := some token.tokenType
    ftlTokenExpires := some (toString (now + (token.expiresIn : Int) * 1000)) }

/-- Value of a list of decimal digits, most significant first. -/
def digitsToNat (ds : List Char) : Nat :=
  ds.foldl (fun acc c => 10 * acc + (c.toNat - 48)) 0

/-- JavaScript `parseInt(s, 10)`: skip leading whitespace, read an
optional sign, then the longest prefix of decimal digits; `NaN`
(modelled as `none`) when no digit is found. -/
def jsParseInt (s : String) : Option Int :=
  let cs := s.toList.dropWhile Char.isWhitespace
  let signAndRest : Bool × List Char :=
    match cs with
    | '-' :: rest => (true, rest)
    | '+' :: rest => (false, rest)
    | _ => (false, cs)
  let ds := signAndRest.2.takeWhile Char.isDigit
  if ds.isEmpty then none
  else if signAndRest.1 then some (-(digitsToNat ds : Int))
  else some ((digitsToNat ds : Int))

/-- Model of `getCachedOAuthToken()` reading store `env` at current time `now`
(epoch ms): null on falsy fields, unparsable expiry or expiry ≤ now;
otherwise the token with `expiresIn` recomputed as
`Math.floor((expiry - now) / 1000)`. -/
def getCachedOAuthToken (env : EnvStore) (now : Int) : Option OAuthToken :=
  if !jsTruthyStr env.ftlAuthToken || !jsTruthyStr env.ftlTokenType ||
      !jsTruthyStr env.ftlTokenExpires then
    none
  else
    match jsParseInt (env.ftlTokenExpires.getD "") with
    | none => none
    | some expiry =>
      if expiry ≤ now then none
      else
        some { accessToken := env.ftlAuthToken.getD ""
               tokenType := env.ftlTokenType.getD ""
               expiresIn := (expiry - now).toNat / 1000 }

theorem obtainOAuthToken_trace_shape (cfg : OAuthConfig) (net : FetchOutcome) :
    ∃ tail, (obtainOAuthToken cfg net).1 =
      .setSecret cfg.clientId :: .setSecret cfg.clientSecret ::
        .fetchTo cfg.url :: tail := by
  rcases net with msg | ⟨status, statusText, body⟩
  · exact ⟨[], rfl⟩
  · by_cases h : respOk status = true
    · rcases body with jsonErr | b
      · exact ⟨[], by simp [obtainOAuthToken, h]⟩
      · by_cases hb : jsTruthyStr b.access_token = true
        · exact ⟨[.setSecret (b.access_token.getD "")],
            by simp [obtainOAuthToken, h, hb]⟩
        · exact ⟨[], by simp [obtainOAuthToken, h, hb]⟩
    · exact ⟨[], by simp [obtainOAuthToken, h]⟩

/-- C4. In every execution of `obtainOAuthToken` — whatever the network
does, success or failure — the first three observable actions are
`setSecret clientId`, `setSecret clientSecret` and only then the network
request, and every network-request event in the trace is preceded by the
masking of both credentials: no fetch precedes either `setSecret`. -/
theorem obtainOAuthToken_masks_before_fetch (cfg : OAuthConfig)
    (net : FetchOutcome) :
    (obtainOAuthToken cfg net).1.take 3 =
      [.setSecret cfg.clientId, .setSecret cfg.clientSecret,
       .fetchTo cfg.url] ∧
    ∀ pre e post, (obtainOAuthToken cfg net).1 = pre ++ e :: post →
      isFetchOAuth e = true →
      OAuthEvent.setSecret cfg.clientId ∈ pre ∧
      OAuthEvent.setSecret cfg.clientSecret ∈ pre := by
  obtain ⟨tail, htr⟩ := obtainOAuthToken_trace_shape cfg net
  rw [htr]
  refine ⟨rfl, ?_⟩
  intro pre e post hdecomp hfetch
  rcases pre with _ | ⟨x, _ | ⟨y, pre⟩⟩
  · simp only [List.nil_append, List.cons.injEq] at hdecomp
    rw [← hdecomp.1] at hfetch
    simp [isFetchOAuth] at hfetch
  · simp only [List.cons_append, List.nil_append, List.cons.injEq] at hdecomp
    rw [← hdecomp.2.1] at hfetch
    simp [isFetchOAuth] at hfetch
  · simp only [List.cons_append, List.cons.injEq] at hdecomp
    rw [hdecomp.1, hdecomp.2.1]
    simp

/-- C4 witness: concrete config and a 503 response; the fetch event
sits after both maskings. -/
theorem obtainOAuthToken_masks_before_fetch_witness :
    OAuthEvent.setSecret "id" ∈
      [OAuthEvent.setSecret "id", OAuthEvent.setSecret "sec"] ∧
    OAuthEvent.setSecret "sec" ∈
      [OAuthEvent.setSecret "id", OAuthEvent.setSecret "sec"] :=
  (obtainOAuthToken_masks_before_fetch
      ⟨"https://auth.example/token", "id", "sec", "deploy"⟩
      (.response 503 "Service Unavailable" (.error "bad json"))).2
    [.setSecret "id", .setSecret "sec"]
    (.fetchTo "https://auth.example/token") [] (by decide) (by decide)

/-- Scenario of the C5 example: `clientId = "a"`, `clientSecret = "b"`,
token endpoint answering HTTP 401. -/
def oauthCfgAB : OAuthConfig :=
  { url := "https://auth.example/token", clientId := "a", clientSecret := "b" }

/-- A 401 response (its body is never read on the error path). -/
def oauth401 : FetchOutcome :=
  .response 401 "Unauthorized" (.error "Unexpected end of JSON input")

/-- The message `obtainOAuthToken` rejects with in that scenario. -/
def oauth401Msg : String :=
  "OAuth token acquisition failed: OAuth authentication failed: 401 Unauthorized"

/-- C5 counterexample. The claim asserts the rejection message never
contains the `clientId` value; with `clientId = "a"` it does: the fixed
text of the message contains the letter `a` (e.g. in `acquisition`), so
"contains neither \"a\" nor \"b\"" is false even though the credentials
are never interpolated. -/
theorem obtainOAuthToken_401_contains_clientId :
    (obtainOAuthToken oauthCfgAB oauth401).2 = .error oauth401Msg ∧
    strContains oauth401Msg "a" := by
  exact ⟨by rfl, by decide⟩

/-- C5 (amended). On a non-success response the rejection message is
built only from fixed text, the status code and the status text: it
contains the status code, is identical for every choice of `clientId` and
`clientSecret` (so the credentials never leak into it), and in the
concrete 401 scenario it contains `"401"` and does not contain the
`clientSecret` value `"b"`.  (The original "contains neither the clientId
nor the clientSecret value" fails for substrings of the fixed text such as
`"a"`; see the counterexample.) -/
theorem obtainOAuthToken_nonSuccess_message (cid cs cid2 cs2 url scope
    statusText : String) (status : Nat)
    (body : Except String TokenResponseBody)
    (h : respOk status = false) :
    (obtainOAuthToken ⟨url, cid, cs, scope⟩
        (.response status statusText body)).2 =
      .error ("OAuth token acquisition failed: OAuth authentication failed: "
        ++ toString status ++ " " ++ statusText) ∧
    strContains ("OAuth token acquisition failed: OAuth authentication failed: "
        ++ toString status ++ " " ++ statusText) (toString status) ∧
    (obtainOAuthToken ⟨url, cid, cs, scope⟩
        (.response status statusText body)).2 =
      (obtainOAuthToken ⟨url, cid2, cs2, scope⟩
        (.response status statusText body)).2 ∧
    strContains oauth401Msg "401" ∧
    ¬strContains oauth401Msg "b" := by
  refine ⟨?_, ?_, ?_, by decide, by decide⟩
  · simp [obtainOAuthToken, h]
  · have hc : "OAuth token acquisition failed: OAuth authentication failed: "
        ++ toString status ++ " " ++ statusText =
        "OAuth token acquisition failed: OAuth authentication failed: "
        ++ toString status ++ (" " ++ statusText) := by
      rw [String.append_assoc]
    rw [hc]
    exact strContains_append
      "OAuth token acquisition failed: OAuth authentication failed: "
      (toString status) (" " ++ statusText)
  · simp [obtainOAuthToken, h]

/-- C5 amended witness: the scenario of the claim, 401 Unauthorized
with credentials `"a"` and `"b"` (compared against `"x"`, `"y"`). -/
theorem obtainOAuthToken_nonSuccess_message_witness :
    (obtainOAuthToken ⟨"https://auth.example/token", "a", "b", "deploy"⟩
        (.response 401 "Unauthorized" (.error "Unexpected end of JSON input"))).2 =
      .error ("OAuth token acquisition failed: OAuth authentication failed: "
        ++ toString 401 ++ " " ++ "Unauthorized") ∧
    strContains ("OAuth token acquisition failed: OAuth authentication failed: "
        ++ toString 401 ++ " " ++ "Unauthorized") (toString 401) ∧
    (obtainOAuthToken ⟨"https://auth.example/token", "a", "b", "deploy"⟩
        (.response 401 "Unauthorized" (.error "Unexpected end of JSON input"))).2 =
      (obtainOAuthToken ⟨"https://auth.example/token", "x", "y", "deploy"⟩
        (.response 401 "Unauthorized" (.error "Unexpected end of JSON input"))).2 ∧
    strContains oauth401Msg "401" ∧
    ¬strContains oauth401Msg "b" :=
  obtainOAuthToken_nonSuccess_message "a" "b" "x" "y"
    "https://auth.example/token" "deploy" "Unauthorized" 401
    (.error "Unexpected end of JSON input") (by decide)

theorem jsTruthyStr_getD (v : Option String) (h : jsTruthyStr v = true) :
    v.getD "" ≠ "" := by
  cases v with
  | none => simp [jsTruthyStr] at h
  | some s => simpa [jsTruthyStr] using h

theorem getCachedOAuthToken_some (env : EnvStore) (now e : Int)
    (h1 : jsTruthyStr env.ftlAuthToken = true)
    (h2 : jsTruthyStr env.ftlTokenType = true)
    (h3 : jsTruthyStr env.ftlTokenExpires = true)
    (hp : jsParseInt (env.ftlTokenExpires.getD "") = some e)
    (he : now < e) :
    getCachedOAuthToken env now =
      some { accessToken := env.ftlAuthToken.getD ""
             tokenType := env.ftlTokenType.getD ""
             expiresIn := (e - now).toNat / 1000 } := by
  have hne : ¬e ≤ now := by omega
  simp [getCachedOAuthToken, h1, h2, h3, hp, hne]

/-- C6: `getCachedOAuthToken` returns null exactly when a stored field
is absent (`undefined` or the falsy empty string), the expiry does not
parse as a number, or the parsed expiry is at or before `now`; any token
it does return has its fields read from the store, a parsed expiry
strictly after `now` (never a stale token) and
`expiresIn = ⌊(expiry - now) / 1000⌋`; in particular a stored expiry
parsing to `now + 7200000` yields `expiresIn = 7200`. -/
theorem getCachedOAuthToken_spec (env : EnvStore) (now : Int) :
    (getCachedOAuthToken env now = none ↔
      jsTruthyStr env.ftlAuthToken = false ∨
      jsTruthyStr env.ftlTokenType = false ∨
      jsTruthyStr env.ftlTokenExpires = false ∨
      jsParseInt (env.ftlTokenExpires.getD "") = none ∨
      ∃ e, jsParseInt (env.ftlTokenExpires.getD "") = some e ∧ e ≤ now) ∧
    (∀ t, getCachedOAuthToken env now = some t →
      ∃ e, jsParseInt (env.ftlTokenExpires.getD "") = some e ∧ now < e ∧
        t.expiresIn = (e - now).toNat / 1000 ∧
        t.accessToken = env.ftlAuthToken.getD "" ∧
        t.tokenType = env.ftlTokenType.getD "") ∧
    (jsTruthyStr env.ftlAuthToken = true →
     jsTruthyStr env.ftlTokenType = true →
     jsTruthyStr env.ftlTokenExpires = true →
     jsParseInt (env.ftlTokenExpires.getD "") = some (now + 7200000) →
     getCachedOAuthToken env now =
       some { accessToken := env.ftlAuthToken.getD ""
              tokenType := env.ftlTokenType.getD ""
              expiresIn := 7200 }) := by
  refine ⟨⟨?_, ?_⟩, ?_, ?_⟩
  · intro hnone
    cases h1 : jsTruthyStr env.ftlAuthToken with
    | false => exact Or.inl rfl
    | true =>
    cases h2 : jsTruthyStr env.ftlTokenType with
    | false => exact Or.inr (Or.inl rfl)
    | true =>
    cases h3 : jsTruthyStr env.ftlTokenExpires with
    | false => exact Or.inr (Or.inr (Or.inl rfl))
    | true =>
    cases hp : jsParseInt (env.ftlTokenExpires.getD "") with
    | none => exact Or.inr (Or.inr (Or.inr (Or.inl rfl)))
    | some e =>
      by_cases he : e ≤ now
      · exact Or.inr (Or.inr (Or.inr (Or.inr ⟨e, rfl, he⟩)))
      · rw [getCachedOAuthToken_some env now e h1 h2 h3 hp (by omega)]
          at hnone
        cases hnone
  · intro hdisj
    rcases hdisj with h | h | h | h | ⟨e, hp, he⟩
    · simp [getCachedOAuthToken, h]
    · simp [getCachedOAuthToken, h]
    · simp [getCachedOAuthToken, h]
    · by_cases hc : (!jsTruthyStr env.ftlAuthToken ||
          !jsTruthyStr env.ftlTokenType ||
          !jsTruthyStr env.ftlTokenExpires) = true
      · simp [getCachedOAuthToken, hc]
      · simp [getCachedOAuthToken, hc, h]
    · by_cases hc : (!jsTruthyStr env.ftlAuthToken ||
          !jsTruthyStr env.ftlTokenType ||
          !jsTruthyStr env.ftlTokenExpires) = true
      · simp [getCachedOAuthToken, hc]
      · simp [getCachedOAuthToken, hc, hp, he]
  · intro t ht
    cases h1 : jsTruthyStr env.ftlAuthToken with
    | false => simp [getCachedOAuthToken, h1] at ht
    | true =>
    cases h2 : jsTruthyStr env.ftlTokenType with
    | false => simp [getCachedOAuthToken, h2] at ht
    | true =>
    cases h3 : jsTruthyStr env.ftlTokenExpires with
    | false => simp [getCachedOAuthToken, h3] at ht
    | true =>
    cases hp : jsParseInt (env.ftlTokenExpires.getD "") with
    | none => simp [getCachedOAuthToken, h1, h2, h3, hp] at ht
    | some e =>
      by_cases he : e ≤ now
      · simp [getCachedOAuthToken, h1, h2, h3, hp, he] at ht
      · rw [getCachedOAuthToken_some env now e h1 h2 h3 hp (by omega)] at ht
        refine ⟨e, rfl, by omega, ?_, ?_, ?_⟩ <;>
          simp [← Option.some.inj ht]
  · intro h1 h2 h3 hp
    rw [getCachedOAuthToken_some env now (now + 7200000) h1 h2 h3 hp
      (by omega)]
    have harith : (now + 7200000 - now).toNat / 1000 = 7200 := by
      have hsub : now + 7200000 - now = 7200000 := by omega
      rw [hsub]
      rfl
    rw [harith]

/-- C6 witness: a populated store whose expiry parses to
`now + 7,200,000` with `now = 1,000,000` yields `expiresIn = 7200`. -/
theorem getCachedOAuthToken_spec_witness :
    getCachedOAuthToken ⟨some "tok", some "Bearer", some "8200000"⟩ 1000000 =
      some { accessToken := (some "tok").getD ""
             tokenType := (some "Bearer").getD ""
             expiresIn := 7200 } :=
  (getCachedOAuthToken_spec ⟨some "tok", some "Bearer", some "8200000"⟩
      1000000).2.2 (by decide) (by decide) (by decide) (by decide)

/-- C10. Every token `getCachedOAuthToken` returns has a non-empty
`accessToken` and a non-empty `tokenType` (an empty string stored in the
process-wide store counts as absent); and when the exchange response body
lacks `access_token`, `obtainOAuthToken` resolves with a token whose
`accessToken` is `""`, which `cacheOAuthToken` stores but
`getCachedOAuthToken` then refuses to return (it yields null whatever the
current time). -/
theorem cachedToken_fields_nonEmpty :
    (∀ (env : EnvStore) (now : Int) t,
      getCachedOAuthToken env now = some t →
      t.accessToken ≠ "" ∧ t.tokenType ≠ "") ∧
    (∀ (cfg : OAuthConfig) (status : Nat) (statusText : String)
       (b : TokenResponseBody) (now now2 : Int),
      respOk status = true → b.access_token = none →
      (obtainOAuthToken cfg (.response status statusText (.ok b))).2 =
        .ok (tokenFromBody b) ∧
      (tokenFromBody b).accessToken = "" ∧
      getCachedOAuthToken (cacheOAuthToken (tokenFromBody b) now) now2 =
        none) := by
  constructor
  · intro env now t ht
    cases h1 : jsTruthyStr env.ftlAuthToken with
    | false => simp [getCachedOAuthToken, h1] at ht
    | true =>
    cases h2 : jsTruthyStr env.ftlTokenType with
    | false => simp [getCachedOAuthToken, h2] at ht
    | true =>
    cases h3 : jsTruthyStr env.ftlTokenExpires with
    | false => simp [getCachedOAuthToken, h3] at ht
    | true =>
    cases hp : jsParseInt (env.ftlTokenExpires.getD "") with
    | none => simp [getCachedOAuthToken, h1, h2, h3, hp] at ht
    | some e =>
      by_cases he : e ≤ now
      · simp [getCachedOAuthToken, h1, h2, h3, hp, he] at ht
      · rw [getCachedOAuthToken_some env now e h1 h2 h3 hp (by omega)] at ht
        constructor
        · rw [← Option.some.inj ht]
          exact jsTruthyStr_getD env.ftlAuthToken h1
        · rw [← Option.some.inj ht]
          exact jsTruthyStr_getD env.ftlTokenType h2
  · intro cfg status statusText b now now2 hok hb
    refine ⟨by simp [obtainOAuthToken, hok], ?_, ?_⟩
    · simp [tokenFromBody, hb, jsOrString]
    · simp [getCachedOAuthToken, cacheOAuthToken, tokenFromBody, hb,
        jsOrString, jsTruthyStr]

/-- C10 witness: an empty exchange body yields `accessToken = ""`,
and reading the cache written from it yields null. -/
theorem cachedToken_fields_nonEmpty_witness :
    (obtainOAuthToken ⟨"https://auth.example/token", "id", "sec", "deploy"⟩
        (.response 200 "OK" (.ok {}))).2 =
      .ok (tokenFromBody {}) ∧
    (tokenFromBody {}).accessToken = "" ∧
    getCachedOAuthToken (cacheOAuthToken (tokenFromBody {}) 0) 0 = none :=
  cachedToken_fields_nonEmpty.2
    ⟨"https://auth.example/token", "id", "sec", "deploy"⟩ 200 "OK" {} 0 0
    (by decide) rfl

/-! Embedding of waitForDeploymentCompletion (packages/ftl-eng-deploy/src/main.ts)

```
while (Date.now() - startTime < timeoutMs) {
  try {
    const response = await fetch(statusUrl, …)
    if (!response.ok) throw new Error(`Status check failed: ${status} ${statusText}`)
    const status = await response.json()
    if (status.status === 'completed') return status
    if (status.status === 'failed')
      throw new Error(`Deployment failed: ${status.error || 'Deployment failed'}`)
    await delay(pollInterval)                      // 10 s
  } catch (error) {
    if (error.message.includes('Deployment failed:')) throw error
    await delay(pollInterval)                      // retry on anything else
  }
}
throw new Error(`Deployment timed out after ${timeoutSeconds} seconds`)
```

The `k`-th status check is given by the `poll` oracle; polls are treated
as instantaneous, so the clock advances by one `pollInterval` per retried
iteration. -/

/-- Deployment status values carried by a status response. -/
inductive DeployStatus where
  | pending
  | inProgress
  | completed
  | failed
  deriving DecidableEq, Repr

/-- One poll of the status endpoint, as the loop body observes it:
the fetch (or JSON parse) threw, the response was non-success, or a status
object (with its optional `error` field) was obtained. -/
inductive PollResult where
  | networkError (msg : String)
  | httpError (status : Nat) (statusText : String)
  | statusResp (s : DeployStatus) (error : Option String)
  deriving DecidableEq, Repr

/-- The fixed 10-second poll interval. -/
def pollIntervalMs : Nat := 10000

/-- The polling loop of `waitForDeploymentCompletion`; `elapsed` is
`Date.now() - startTime` at the top of the iteration and `k` the poll
index. -/
def wdcGo (poll : Nat → PollResult) (timeoutSeconds : Nat) (k elapsed : Nat) :
    Except String (DeployStatus × Option String) :=
  if h : elapsed < timeoutSeconds * 1000 then
    match poll k with
    | .statusResp .completed err => .ok (.completed, err)
    | .statusResp .failed err =>
      .error ("Deployment failed: " ++ jsOrString err "Deployment failed")
    | .statusResp .pending _ =>
      wdcGo poll timeoutSeconds (k + 1) (elapsed + pollIntervalMs)
    | .statusResp .inProgress _ =>
      wdcGo poll timeoutSeconds (k + 1) (elapsed + pollIntervalMs)
    | .httpError status statusText =>
      if strContainsB ("Status check failed: " ++ toString status ++ " " ++
          statusText) "Deployment failed:" then
        .error ("Status check failed: " ++ toString status ++ " " ++
          statusText)
      else wdcGo poll timeoutSeconds (k + 1) (elapsed + pollIntervalMs)
    | .networkError msg =>
      if strContainsB msg "Deployment failed:" then .error msg
      else wdcGo poll timeoutSeconds (k + 1) (elapsed + pollIntervalMs)
  else
    .error ("Deployment timed out after " ++ toString timeoutSeconds ++
      " seconds")
termination_by timeoutSeconds * 1000 - elapsed
decreasing_by all_goals simp [pollIntervalMs]; omega

/-- Model of `waitForDeploymentCompletion(deploymentId, token, timeoutSeconds)`
with the status endpoint given by the `poll` oracle. -/
def waitForDeploymentCompletion (poll : Nat → PollResult)
    (timeoutSeconds : Nat) : Except String (DeployStatus × Option String) :=
  wdcGo poll timeoutSeconds 0 0

/-- Poll results the loop retries: pending / in-progress statuses, and
thrown errors whose message does not contain the sentinel substring
`"Deployment failed:"` the catch block dispatches on. -/
def retryablePoll : PollResult → Bool
  | .statusResp .pending _ => true
  | .statusResp .inProgress _ => true
  | .statusResp .completed _ => false
  | .statusResp .failed _ => false
  | .httpError status statusText =>
    !strContainsB ("Status check failed: " ++ toString status ++ " " ++
      statusText) "Deployment failed:"
  | .networkError msg => !strContainsB msg "Deployment failed:"

theorem wdcGo_step (poll : Nat → PollResult) (timeoutSeconds k elapsed : Nat)
    (h : elapsed < timeoutSeconds * 1000)
    (hr : retryablePoll (poll k) = true) :
    wdcGo poll timeoutSeconds k elapsed =
      wdcGo poll timeoutSeconds (k + 1) (elapsed + pollIntervalMs) := by
  rw [wdcGo]
  cases hpk : poll k with
  | networkError msg =>
    simp only [retryablePoll, hpk, Bool.not_eq_true'] at hr
    simp [h, hpk, hr]
  | httpError status statusText =>
    simp only [retryablePoll, hpk, Bool.not_eq_true'] at hr
    simp [h, hpk, hr]
  | statusResp s e =>
    cases s with
    | pending => simp [h, hpk]
    | inProgress => simp [h, hpk]
    | completed => simp [retryablePoll, hpk] at hr
    | failed => simp [retryablePoll, hpk] at hr

theorem wdcGo_failed (poll : Nat → PollResult) (timeoutSeconds : Nat)
    (err : Option String) :
    ∀ n k elapsed,
      (∀ j, j < n → retryablePoll (poll (k + j)) = true) →
      poll (k + n) = .statusResp .failed err →
      elapsed + n * pollIntervalMs < timeoutSeconds * 1000 →
      wdcGo poll timeoutSeconds k elapsed =
        .error ("Deployment failed: " ++ jsOrString err "Deployment failed") := by
  intro n
  induction n with
  | zero =>
    intro k elapsed _ hf hb
    rw [wdcGo]
    rw [Nat.add_zero] at hf
    simp only [Nat.zero_mul, Nat.add_zero] at hb
    simp [hb, hf]
  | succ n ih =>
    intro k elapsed hr hf hb
    have hp : (0 : Nat) < pollIntervalMs := by simp [pollIntervalMs]
    have hdistrib : (n + 1) * pollIntervalMs =
        n * pollIntervalMs + pollIntervalMs := by ring
    have hlt : elapsed < timeoutSeconds * 1000 := by omega
    rw [wdcGo_step poll timeoutSeconds k elapsed hlt
      (by simpa using hr 0 (Nat.succ_pos n))]
    have hf1 : poll (k + 1 + n) = .statusResp .failed err := by
      have he : k + 1 + n = k + (n + 1) := by omega
      rw [he]
      exact hf
    exact ih (k + 1) (elapsed + pollIntervalMs)
      (fun j hj => by
        have he : k + 1 + j = k + (j + 1) := by omega
        rw [he]
        exact hr (j + 1) (by omega))
      hf1
      (by omega)

theorem wdcGo_allRetryable (poll : Nat → PollResult) (timeoutSeconds : Nat)
    (hr : ∀ j, retryablePoll (poll j) = true) :
    ∀ m k elapsed, timeoutSeconds * 1000 - elapsed = m →
      wdcGo poll timeoutSeconds k elapsed =
        .error ("Deployment timed out after " ++ toString timeoutSeconds ++
          " seconds") := by
  intro m
  induction m using Nat.strong_induction_on with
  | _ m ih =>
    intro k elapsed hm
    by_cases h : elapsed < timeoutSeconds * 1000
    · rw [wdcGo_step poll timeoutSeconds k elapsed h (hr k)]
      have hp : (0 : Nat) < pollIntervalMs := by simp [pollIntervalMs]
      exact ih (timeoutSeconds * 1000 - (elapsed + pollIntervalMs))
        (by omega) (k + 1) (elapsed + pollIntervalMs) rfl
    · rw [wdcGo]
      simp [h]

/-- The C9 counterexample oracle: every status check yields HTTP 500 with
a status text that happens to contain the catch block's sentinel text. -/
def pollHttp500Sentinel : Nat → PollResult :=
  fun _ => .httpError 500 "Deployment failed: boom"

/-- C9 counterexample. The claim says non-success status-check
responses are retried until the overall timeout; but a non-success
response whose status text contains `"Deployment failed:"` is re-thrown
as terminal by the catch block's `includes` dispatch.  With a 300 s
timeout (room for ~30 polls), the very first 500 response ends the loop
with the status-check error, not the timeout error. -/
theorem waitForDeploymentCompletion_httpError_terminal :
    waitForDeploymentCompletion pollHttp500Sentinel 300 =
      .error "Status check failed: 500 Deployment failed: boom" ∧
    ("Status check failed: 500 Deployment failed: boom" : String) ≠
      "Deployment timed out after 300 seconds" := by
  constructor
  · have hs : strContainsB "Status check failed: 500 Deployment failed: boom"
        "Deployment failed:" = true := by decide
    have hm : ("Status check failed: " ++ toString (500 : Nat) ++ " " ++
        "Deployment failed: boom") =
        "Status check failed: 500 Deployment failed: boom" := by decide
    unfold waitForDeploymentCompletion
    rw [wdcGo]
    norm_num [pollHttp500Sentinel, hm, hs]
  · decide

/-- C9 (amended). An explicit `failed` status is an immediate terminal
rejection carrying the deployment's error message (`status.error`, or the
default `Deployment failed`), not retried; and network errors,
pending/in-progress statuses and non-success status-check responses are
retried until the overall timeout elapses provided the resulting error
message does not itself contain the sentinel substring
`"Deployment failed:"` (the counterexample shows that proviso is
necessary). -/
theorem waitForDeploymentCompletion_failed_terminal
    (poll poll2 : Nat → PollResult) (timeoutSeconds n : Nat)
    (err : Option String)
    (hbudget : n * pollIntervalMs < timeoutSeconds * 1000)
    (hretry : ∀ j, j < n → retryablePoll (poll j) = true)
    (hfail : poll n = .statusResp .failed err)
    (hretry2 : ∀ j, retryablePoll (poll2 j) = true) :
    waitForDeploymentCompletion poll timeoutSeconds =
      .error ("Deployment failed: " ++ jsOrString err "Deployment failed") ∧
    waitForDeploymentCompletion poll2 timeoutSeconds =
      .error ("Deployment timed out after " ++ toString timeoutSeconds ++
        " seconds") := by
  constructor
  · exact wdcGo_failed poll timeoutSeconds err n 0 0
      (fun j hj => by simpa using hretry j hj)
      (by simpa using hfail)
      (by simpa using hbudget)
  · exact wdcGo_allRetryable poll2 timeoutSeconds hretry2
      (timeoutSeconds * 1000) 0 0 rfl

/-- Concrete oracle for the C9 witness: two pending polls, then `failed`
with an error message. -/
def pollFailAtTwo : Nat → PollResult :=
  fun k =>
    match k with
    | 0 => .statusResp .pending none
    | 1 => .statusResp .inProgress none
    | _ => .statusResp .failed (some "build exploded")

/-- C9 witness: with a 300 s budget, a `failed` status on the third
poll terminates with its error message, while an always-pending oracle
times out. -/
theorem waitForDeploymentCompletion_failed_terminal_witness :
    waitForDeploymentCompletion pollFailAtTwo 300 =
      .error ("Deployment failed: " ++
        jsOrString (some "build exploded") "Deployment failed") ∧
    waitForDeploymentCompletion (fun _ => .statusResp .pending none) 300 =
      .error ("Deployment timed out after " ++ toString 300 ++ " seconds") :=
  waitForDeploymentCompletion_failed_terminal pollFailAtTwo
    (fun _ => .statusResp .pending none) 300 2 (some "build exploded")
    (by decide)
    (by
      intro j hj
      match j, hj with
      | 0, _ => rfl
      | 1, _ => rfl)
    rfl
    (fun _ => rfl)

end FtlActions
